import Mathlib

/-!
Shallow embedding of `autotest.py`, the batch test-execution and comparison
engine of this repository.  Byte strings are modelled as `List Nat`; the
filesystem and the behaviour of the target program are passed in explicitly
as functions, so every definition is executable on concrete inputs.
-/

namespace Autotest

/-- Captured byte strings (Python `bytes`) are modelled as lists of byte values. -/
abbrev Bytes := List Nat

/-- The parsed command-line argument bag built by `parse_args`
(autotest.py lines 32-79).  `file` is the `-f` choice, `filter` the `-F`
value (`[]` when the flag is absent), `timeout` the raw `-T` value: argparse
with `nargs=1` stores a one-element *list* of strings, which is why the field
is an `Option (List String)` and not an `Option String`. -/
structure Commands where
  file : Option String
  input : Bool
  output : Bool
  verbose : Bool
  copy : Bool
  testcases : Bool
  filter : List String
  timeout : Option (List String)
  positional_args : List String

/-- Outcome of one `subprocess.run` call (autotest.py lines 125-139): either
`subprocess.TimeoutExpired` was raised, or the child exited with the given
captured stdout and stderr bytes. -/
inductive ExecOutcome where
  | timeout : ExecOutcome
  | finished (stdout stderr : Bytes) : ExecOutcome
deriving DecidableEq, Repr

/-- Python `l[-n:]` (for `n` at most the length this is the last `n` elements,
otherwise the whole list). -/
def lastN (n : Nat) (l : List α) : List α := l.drop (l.length - n)

/-- One step of Python `str.replace`, with explicit fuel so the definition is
structural and evaluates inside the kernel.  At each position, if the
(non-empty) pattern matches it is replaced and scanning resumes after the
replacement, exactly like CPython's left-to-right non-overlapping scan. -/
def replaceAllAux (pat repl : List Char) : Nat → List Char → List Char
  | 0, s => s
  | _ + 1, [] => []
  | fuel + 1, c :: rest =>
    if pat ≠ [] ∧ (c :: rest).take pat.length = pat then
      repl ++ replaceAllAux pat repl fuel ((c :: rest).drop pat.length)
    else
      c :: replaceAllAux pat repl fuel rest

/-- Python `s.replace(pat, repl)` on code-point lists. -/
def replaceAll (pat repl s : List Char) : List Char :=
  replaceAllAux pat repl s.length s

/-- Python `s.split(sep)` for a one-character separator: splits at every
occurrence, keeping empty pieces (`'a//b'.split('/') == ['a','','b']`,
`''.split('/') == ['']`). -/
def splitOnChar (sep : Char) : List Char → List (List Char)
  | [] => [[]]
  | c :: rest =>
    if c = sep then [] :: splitOnChar sep rest
    else
      match splitOnChar sep rest with
      | [] => [[c]]
      | h :: t => (c :: h) :: t

/-- Python `s.split(sep)` on strings, one-character separator. -/
def pySplit (s : String) (sep : Char) : List String :=
  (splitOnChar sep s.data).map (fun l => ⟨l⟩)

/-- Python `folder.replace('/tests', '/solutions')` (autotest.py line 143). -/
def solutionPath (folder : String) : String :=
  ⟨replaceAll "/tests".data "/solutions".data folder.data⟩

/-- Loading the expected-output bytes (autotest.py lines 141-146): the
solution file is the `tests`→`solutions` substitution of the case path; it is
read only when it exists and the substitution changed the path, otherwise the
`solution` variable keeps its initial empty value.  `fileBytes` is the
filesystem: `none` means the path does not exist. -/
def loadSolution (fileBytes : String → Option Bytes) (folder : String) : Bytes :=
  let solve := solutionPath folder
  if solve ≠ folder then (fileBytes solve).getD [] else []

/-- How one executed case is reported (autotest.py lines 147-158):
`passed`/`failed` from the byte comparison, `noSolution` when the case is
appended to `NO_SOLUTIONS` and `..` is printed, `unclassified` when the case
falls through both branches (non-empty stderr and no comparison), `timedOut`
when `subprocess.TimeoutExpired` was caught (lines 137-139). -/
inductive CaseReport where
  | passed : CaseReport
  | failed : CaseReport
  | noSolution : CaseReport
  | unclassified : CaseReport
  | timedOut : CaseReport
deriving DecidableEq, Repr

/-- `io.DEFAULT_BUFFER_SIZE`: the size of the write buffer wrapped around a
`tempfile.NamedTemporaryFile()`. -/
def BUFSIZ : Nat := 8192

/-- The bytes actually on disk after the single, never-flushed `write` at
autotest.py line 149 (resp. line 151).  `NamedTemporaryFile()` hands back a
buffered writer and `run_test` neither flushes nor seeks it before the
comparison, so a write smaller than the buffer is still sitting in memory —
the on-disk file is empty when `filecmp.cmp` stats and reads it by name —
while a write of at least the buffer size is passed through to disk. -/
def diskBytes (data : Bytes) : Bytes :=
  if data.length < BUFSIZ then [] else data

/-- `filecmp.cmp(f1, f2)` on the two temporary file *names*
(autotest.py line 152), as a function of the bytes on disk: files of
different sizes compare unequal, files of equal size are compared byte by
byte, so the result is equality of the on-disk contents.  (The `shallow`
fast path can additionally report two same-size files equal on an `os.stat`
mtime collision without reading them; no theorem below goes near that
corner.) -/
def filecmpCmp (a b : Bytes) : Bool := a == b

/-- The classification at autotest.py lines 147-158.  The comparison branch
runs only when *both* captured stdout and the solution bytes are non-empty
(Python truthiness of `output.stdout and solution`); the `NO_SOLUTIONS`
branch only when stderr is empty.  The comparison itself is `filecmp.cmp`
over the names of the two unflushed temporary files, i.e. equality of
`diskBytes out` and `diskBytes sol` — *not* of the byte strings themselves:
for outputs below the buffer size both on-disk files are empty and the
comparison succeeds regardless of content. -/
def classify (out err sol : Bytes) : CaseReport :=
  if out ≠ [] ∧ sol ≠ [] then
    if filecmpCmp (diskBytes out) (diskBytes sol) then .passed else .failed
  else if err = [] then .noSolution
  else .unclassified

/-- `'/'.join(folder.split('/')[-2:])` (autotest.py line 142). -/
def testfileOf (folder : String) : String :=
  String.intercalate "/" (lastN 2 (pySplit folder '/'))

/-- The invocation list built at autotest.py lines 121-124: `['cargo','run']`
for rust, else the program path (prefixed with `./` when it contains no `/`),
extended with the remaining positional arguments. -/
def progInvocation (cmds : Commands) : List String :=
  let p0 := cmds.positional_args.headD ""
  let base :=
    if cmds.file = some "r" then ["cargo", "run"]
    else if p0.data.contains '/' then [p0] else ["./" ++ p0]
  base ++ cmds.positional_args.tail

/-- The command line written to the log: `' '.join(run_test) + ' ' + testfile`
(autotest.py line 174). -/
def cmdLine (cmds : Commands) (testfile : String) : String :=
  String.intercalate " " (progInvocation cmds) ++ " " ++ testfile

/-- One entry of the `p.out` log: the run header written by `main`
(autotest.py lines 261-268) or the per-case block appended by `run_test`
(lines 172-175). -/
inductive LogEntry where
  | header (timestamp : String) : LogEntry
  | block (command : String) (output : Bytes) : LogEntry
deriving DecidableEq, Repr

/-- Everything observable from one `run_test` call (autotest.py lines
114-175): the report printed for the case, the entry appended to the global
`NO_SOLUTIONS` list (if any), the effective output
(`output.stderr if output.stderr else output.stdout`, line 159) and the log
entries appended to `p.out` when `-c` is set. -/
structure RunResult where
  report : CaseReport
  noSolutionEntry : Option String
  effectiveOut : Bytes
  logEntries : List LogEntry
deriving DecidableEq, Repr

/-- `run_test` (autotest.py lines 114-175) given the subprocess outcome and
the already-loaded solution bytes.  On `TimeoutExpired` the function prints
`timed out` and returns immediately (lines 137-139), so nothing else —
classification, `NO_SOLUTIONS`, log copy — happens for that case. -/
def run_test (cmds : Commands) (folder : String) (exec : ExecOutcome)
    (sol : Bytes) : RunResult :=
  match exec with
  | .timeout => ⟨.timedOut, none, [], []⟩
  | .finished out err =>
    let testfile := testfileOf folder
    let rep := classify out err sol
    let noSol := if rep = .noSolution then some testfile else none
    let eff := if err ≠ [] then err else out
    let log := if cmds.copy then [LogEntry.block (cmdLine cmds testfile) eff] else []
    ⟨rep, noSol, eff, log⟩

/-- The external world a batch run interacts with: `fileBytes` is the
filesystem (used for solution files), `exec` gives the subprocess outcome of
running the target program on a given case path. -/
structure BatchEnv where
  fileBytes : String → Option Bytes
  exec : String → ExecOutcome

/-- One case of the batch loop (autotest.py lines 195-209): `run_test` on the
case path, with the solution loaded from the mirrored `solutions/` path. -/
def batchCase (cmds : Commands) (env : BatchEnv) (folder : String) : RunResult :=
  run_test cmds folder (env.exec folder) (loadSolution env.fileBytes folder)

/-- The final contents of the global `NO_SOLUTIONS` list after a batch over
the given case paths (appended per case at autotest.py line 157, summarised
at lines 210-214). -/
def batchNoSolutions (cmds : Commands) (env : BatchEnv)
    (folders : List String) : List String :=
  folders.filterMap (fun f => (batchCase cmds env f).noSolutionEntry)

/-- The full `p.out` contents of one run: `main` truncates the file and
writes the timestamp header once when `-c` is set (autotest.py lines
261-268), then each executed case appends its block (lines 172-175). -/
def runLog (cmds : Commands) (env : BatchEnv) (ts : String)
    (folders : List String) : List LogEntry :=
  (if cmds.copy then [LogEntry.header ts] else [])
    ++ folders.flatMap (fun f => (batchCase cmds env f).logEntries)

/-- The effective output of one batch case — what its `p.out` block holds
when the case did not time out (autotest.py line 159). -/
def caseEffOut (env : BatchEnv) (f : String) : Bytes :=
  match env.exec f with
  | .timeout => []
  | .finished out err => if err ≠ [] then err else out

/-! ### Group discovery and ordering (autotest.py lines 195-204) -/

/-- ASCII letter, the character class of the regex `[a-zA-Z]*` at
autotest.py line 199. -/
def isAsciiLetterB (c : Char) : Bool :=
  (65 ≤ c.toNat && c.toNat ≤ 90) || (97 ≤ c.toNat && c.toNat ≤ 122)

/-- ASCII digit, as accepted by Python `int()` on the filenames involved. -/
def isAsciiDigitB (c : Char) : Bool :=
  48 ≤ c.toNat && c.toNat ≤ 57

/-- `re.sub(r'[a-zA-Z]*', '', s)`: every ASCII letter is deleted, every other
character kept. -/
def stripLetters (l : List Char) : List Char :=
  l.filter (fun c => !isAsciiLetterB c)

/-- Value of a non-empty all-digit string, most significant digit first. -/
def digitsVal (l : List Char) : Nat :=
  l.foldl (fun n c => 10 * n + (c.toNat - 48)) 0

/-- Parse an all-digit string, `none` when empty or containing a non-digit. -/
def digitsToNat (l : List Char) : Option Nat :=
  if !l.isEmpty && l.all isAsciiDigitB then some (digitsVal l) else none

/-- Python `int(s)` on the strings this program produces: an optional sign
followed by at least one digit, `none` (a raised `ValueError`) otherwise.
(CPython additionally strips surrounding whitespace and allows `_` between
digits; no filename handled by the theorems below contains either, and a
string with no digit at all fails under both readings.) -/
def parsePyInt (l : List Char) : Option Int :=
  match l with
  | [] => none
  | c :: rest =>
    if c = '-' then (digitsToNat rest).map (fun n => -(n : Int))
    else if c = '+' then (digitsToNat rest).map (fun n => (n : Int))
    else (digitsToNat (c :: rest)).map (fun n => (n : Int))

/-- The sort key of autotest.py line 199:
`int(re.sub(r'[a-zA-Z]*', '', x[-3:]))` — only the last three characters of
the whole path are looked at.  `none` models the uncaught `ValueError`. -/
def sortKey (s : String) : Option Int :=
  parsePyInt (stripLetters (lastN 3 s.data))

/-- The key with its defined value (used only once all keys are known to be
defined, mirroring that `sorted` has already evaluated them). -/
def sortKeyD (s : String) : Int := (sortKey s).getD 0

/-- Stable insertion of `x` into an already key-sorted list: `x` goes before
the first element of strictly larger or equal-with-later-position key. -/
def insertLe (key : String → Int) (x : String) : List String → List String
  | [] => [x]
  | y :: ys => if key x ≤ key y then x :: y :: ys else y :: insertLe key x ys

/-- Stable sort by key.  Python's `sorted` is a stable sort comparing the
precomputed keys; any two stable sorts agree, so insertion sort models it. -/
def sortWithKey (key : String → Int) : List String → List String
  | [] => []
  | x :: xs => insertLe key x (sortWithKey key xs)

/-- The order in which the inner loop of `batch_test` visits the files of one
group directory (autotest.py lines 197-199): `sorted` with the numeric key.
`sorted` evaluates the key of every element before the loop body runs once,
so a single undefined key (`ValueError`) aborts the whole group — modelled
as `none`. -/
def groupOrder (files : List String) : Option (List String) :=
  if files.all (fun f => (sortKey f).isSome) then
    some (sortWithKey sortKeyD files)
  else none

/-- The skip test of autotest.py lines 192-194 applied to the split path:
an entry survives when no filter was given, or when the filter set meets
`file.split('/')[-2:]` — the entry's own name *and* its parent segment. -/
def selectedSegs (filt : List String) (segs : List String) : Bool :=
  filt.isEmpty || (lastN 2 segs).any (fun s => filt.contains s)

/-- Whether a top-level entry of the tests root is visited by `batch_test`
given the `-F` filter. -/
def selected (filt : List String) (path : String) : Bool :=
  selectedSegs filt (pySplit path '/')

/-- The top-level entries of the tests root that the batch loop actually
processes (the others hit `continue`). -/
def selectedEntries (filt : List String) (entries : List String) : List String :=
  entries.filter (fun e => selected filt e)

/-! ### Pre-execution validation (autotest.py lines 82-111) -/

/-- The part of the world `check` consults: the `tests` directory probe
computed at import time (line 24) and `os.path.exists` (line 98). -/
structure Env where
  testFolderExists : Bool
  pathExists : String → Bool

/-- Modelled from the spec: the external helper `prog_print`
(`localutils.printing`, not part of this repository) emits a single
program-prefixed line for its message. -/
def progMsg (m : String) : String := "autotest: " ++ m

def MSG_TESTS : String := progMsg "the -t flag requires a 'tests' directory."
def MSG_NO_INPUT : String :=
  progMsg "running programs without input require the use of the -o flag."
def MSG_MISSING_PROG : String := progMsg "missing program file"
def MSG_EXPECTED_PROG_TEST : String :=
  progMsg "expected positional arguments: <program> <test_file>"
def MSG_EXPECTED_TEST : String :=
  progMsg "expected positional arguments: <test_file>"
def MSG_INVALID_TYPE : String := progMsg "Invalid program filetype provided"

/-- `check` (autotest.py lines 82-111): the returned flag plus the messages
printed, in order.  `.error` models an uncaught `IndexError` (`pargs[0]` on
an empty list at line 108, or `split('.')[1]` on a dot-less name).  The
`not pargs` branch runs the help subprocess without printing a message. -/
def check (cmds : Commands) (env : Env) : Except String (Bool × List String) :=
  let pargs := cmds.positional_args
  if cmds.testcases = true ∧ env.testFolderExists = false then
    .ok (false, [MSG_TESTS])
  else if cmds.testcases = false ∧ cmds.input = false ∧ cmds.output = false then
    .ok (false, [MSG_NO_INPUT])
  else
    let first : Bool × List String :=
      if pargs = [] then (false, [])
      else if cmds.file ≠ some "r" ∧ pargs.length < 2 then
        if env.pathExists (pargs.headD "") = false then
          (false, [MSG_MISSING_PROG])
        else if cmds.testcases = false ∧ cmds.output = false then
          (false, [MSG_EXPECTED_PROG_TEST])
        else (true, [])
      else (true, [])
    if cmds.file = some "r" then
      if pargs.length < 1 ∧ cmds.testcases = false then
        .ok (false, first.2 ++ [MSG_EXPECTED_TEST])
      else .ok first
    else
      match cmds.file with
      | none => .ok first
      | some ft =>
        match pargs.head? with
        | none => .error "IndexError: list index out of range"
        | some p =>
          match (pySplit p '.').get? 1 with
          | none => .error "IndexError: list index out of range"
          | some ext =>
            if ext ≠ ft then .ok (false, first.2 ++ [MSG_INVALID_TYPE])
            else .ok first

/-! ### Timeout resolution (autotest.py lines 27 and 259-260) -/

/-- `TIMEOUT: int = 5` (autotest.py line 27). -/
def TIMEOUT : Int := 5

/-- Python `int(x)` applied to a `list` value: always a `TypeError`,
regardless of the list's contents. -/
def pyIntOfStrList (_ : List String) : Except String Int :=
  .error "TypeError: int() argument must be a string, a bytes-like object or a real number, not 'list'"

/-- Lines 259-260 of `main`: `if args['timeout']: TIMEOUT = int(args['timeout'])`.
`args['timeout']` is `None` or the one-element list produced by `nargs=1`;
an empty list is falsy, so the default survives, and a non-empty list is fed
to `int()` as a list. -/
def resolveTimeout (timeoutArg : Option (List String)) : Except String Int :=
  match timeoutArg with
  | none => .ok TIMEOUT
  | some [] => .ok TIMEOUT
  | some l => pyIntOfStrList l

/-! ### Single-case mode (autotest.py lines 219-248) -/

/-- `os.path.basename`: the part after the last `/`. -/
def basenameOf (s : String) : String := (pySplit s '/').getLastD ""

/-- What happens to one explicit file argument in the `-i` loop of
`file_test` (autotest.py lines 237-245): either it is executed as test
number `index`, or a `not found` message naming its basename is printed. -/
inductive FileTestEvent where
  | run (index : Nat) (path : String) : FileTestEvent
  | notFound (basename : String) : FileTestEvent
deriving DecidableEq, Repr

/-- The loop `for i, f in enumerate(pargs[index_start:], 1)` of `file_test`
(autotest.py lines 237-245), with the running index made explicit. -/
def fileTestLoop (isFile : String → Bool) : Nat → List String → List FileTestEvent
  | _, [] => []
  | i, f :: rest =>
    (if isFile f then FileTestEvent.run i f
     else FileTestEvent.notFound (basenameOf f))
      :: fileTestLoop isFile (i + 1) rest

/-- The events of one `-i` invocation of `file_test` over the file arguments
(`pargs[index_start:]`), numbered from 1 in argument order. -/
def fileTestEvents (isFile : String → Bool) (files : List String) : List FileTestEvent :=
  fileTestLoop isFile 1 files

/-! ### Concrete argument bags shared by the witnesses and counterexamples -/

/-- A batch-mode argument bag with no optional flags beyond `-i -t`. -/
def plainCmds : Commands :=
  { file := none, input := true, output := false, verbose := false,
    copy := false, testcases := true, filter := [], timeout := none,
    positional_args := ["prog"] }

/-- `plainCmds` with the `-c` log-copy flag set. -/
def copyCmds : Commands := { plainCmds with copy := true }

end Autotest

open Autotest

/-- C1 (code bug).  The claim states the documented intent — `run_test`
prints `Test passed!`/`Test failed.` from an exact byte-for-byte comparison
of captured stdout against the expected bytes — but the code's comparison is
broken twice over.  `run_test` writes `output.stdout` and `solution` into
two buffered `NamedTemporaryFile`s and calls `filecmp.cmp` on their *names*
without ever flushing (autotest.py lines 148-152), so for outputs smaller
than the 8 KiB buffer both on-disk files are empty and the comparison
reports `Test passed!` even for byte strings that differ — here stdout
`0x32` against expected `0x31`.  And the guard `output.stdout and solution`
(line 147) skips the comparison entirely when captured stdout is empty,
recording "no solution found" where the claim requires "failed". -/
theorem c1_flush_bug :
    (Autotest.run_test plainCmds "/w/tests/t1" (.finished [50] []) [49]).report
      = CaseReport.passed
    ∧ [50] ≠ ([49] : Bytes)
    ∧ diskBytes [50] = [] ∧ diskBytes [49] = []
    ∧ (Autotest.run_test plainCmds "/w/tests/t1" (.finished [] []) [49]).report
      = CaseReport.noSolution := by
  decide

/-- C2, counterexample.  The claim states that *every* batch case without an
expected-output file lands in the "no solution found" list.  On the code,
the `NO_SOLUTIONS` append at autotest.py lines 156-157 is guarded by
`not output.stderr`: a case with no solution file whose process writes a
byte to stderr is appended nowhere — the final list is empty. -/
theorem c2_counterexample :
    loadSolution (fun _ => none) "/w/tests/t1" = []
    ∧ batchNoSolutions plainCmds ⟨fun _ => none, fun _ => .finished [] [101]⟩
        ["/w/tests/t1"] = ([] : List String)
    ∧ (batchCase plainCmds ⟨fun _ => none, fun _ => .finished [] [101]⟩
        "/w/tests/t1").report = .unclassified :=
  ⟨by decide, by decide, by decide⟩

/-- C2 (amended): a batch case whose loaded solution bytes are empty (in
particular, one with no file under `solutions/`) is never reported "passed"
or "failed"; it is recorded in the "no solution found" list exactly when its
process finishes within the timeout and writes no stderr — a timed-out case
or one with non-empty stderr is not recorded. -/
theorem c2_no_oracle (cmds : Commands) (env : BatchEnv) (folder : String)
    (hsol : loadSolution env.fileBytes folder = []) :
    ((batchCase cmds env folder).report ≠ .passed
      ∧ (batchCase cmds env folder).report ≠ .failed)
    ∧ (∀ out err, env.exec folder = .finished out err →
        ((batchCase cmds env folder).noSolutionEntry = some (testfileOf folder)
          ↔ err = []))
    ∧ (env.exec folder = .timeout →
        (batchCase cmds env folder).noSolutionEntry = none) := by
  unfold batchCase
  rw [hsol]
  cases hexec : env.exec folder with
  | timeout => simp [Autotest.run_test]
  | finished out err =>
    refine ⟨?_, ?_, by simp⟩
    · by_cases herr : err = [] <;> simp [Autotest.run_test, classify, herr]
    · intro out' err' heq
      injection heq with h1 h2
      subst h1; subst h2
      by_cases herr : err = [] <;> simp [Autotest.run_test, classify, herr]

/-- Witness for `c2_no_oracle`: a case without a solution file whose process
finishes silently is recorded in the list. -/
theorem c2_witness :
    (batchCase plainCmds ⟨fun _ => none, fun _ => .finished [] []⟩
        "/w/tests/t1").noSolutionEntry = some (testfileOf "/w/tests/t1") :=
  ((c2_no_oracle plainCmds ⟨fun _ => none, fun _ => .finished [] []⟩
      "/w/tests/t1" (by decide)).2.1 [] [] rfl).mpr rfl

/-- C10 (confirmed): an executed case whose process writes non-empty stderr
and for which no comparison is possible (captured stdout empty or no
solution bytes loaded) falls through both branches at autotest.py lines
147-158: it is neither "passed" nor "failed" nor in `NO_SOLUTIONS`, and
stderr replaces stdout as the output used for display and for the `p.out`
log block (line 159). -/
theorem c10_stderr_unclassified (cmds : Commands) (folder : String)
    (out err sol : Bytes) (herr : err ≠ []) (hnc : out = [] ∨ sol = []) :
    (Autotest.run_test cmds folder (.finished out err) sol).report = .unclassified
    ∧ (Autotest.run_test cmds folder (.finished out err) sol).noSolutionEntry = none
    ∧ (Autotest.run_test cmds folder (.finished out err) sol).effectiveOut = err
    ∧ (cmds.copy = true →
        (Autotest.run_test cmds folder (.finished out err) sol).logEntries
          = [LogEntry.block (cmdLine cmds (testfileOf folder)) err]) := by
  have hcond : ¬(out ≠ [] ∧ sol ≠ []) := by
    rcases hnc with h | h <;> simp [h]
  refine ⟨?_, ?_, ?_, ?_⟩
  · simp [Autotest.run_test, classify, hcond, herr]
  · simp [Autotest.run_test, classify, hcond, herr]
  · simp [Autotest.run_test, herr]
  · intro hcopy
    simp [Autotest.run_test, herr, hcopy]

/-- An ASCII digit is not an ASCII letter. -/
theorem digit_not_letter (c : Char) (h : isAsciiDigitB c = true) :
    isAsciiLetterB c = false := by
  simp [isAsciiDigitB] at h
  simp [isAsciiLetterB]
  omega

/-- An ASCII digit is not the minus sign. -/
theorem digit_ne_dash (c : Char) (h : isAsciiDigitB c = true) : c ≠ '-' := by
  intro heq; subst heq; exact absurd h (by decide)

/-- An ASCII digit is not the plus sign. -/
theorem digit_ne_plus (c : Char) (h : isAsciiDigitB c = true) : c ≠ '+' := by
  intro heq; subst heq; exact absurd h (by decide)

/-- `digitsToNat` succeeds on a non-empty all-digit string. -/
theorem digitsToNat_isSome (l : List Char) (hne : l ≠ [])
    (hall : ∀ c ∈ l, isAsciiDigitB c = true) : (digitsToNat l).isSome = true := by
  simp [digitsToNat, hne, List.all_eq_true]
  exact hall

/-- `digitsToNat` fails when no character is a digit (in particular when the
string is empty). -/
theorem digitsToNat_none (l : List Char)
    (h : ∀ c ∈ l, isAsciiDigitB c = false) : digitsToNat l = none := by
  cases l with
  | nil => rfl
  | cons d ds => simp [digitsToNat, h d (List.mem_cons_self d ds)]

/-- `parsePyInt` succeeds on a non-empty all-digit string. -/
theorem parsePyInt_isSome_of_digits (l : List Char) (hne : l ≠ [])
    (hall : ∀ c ∈ l, isAsciiDigitB c = true) : (parsePyInt l).isSome = true := by
  cases l with
  | nil => exact absurd rfl hne
  | cons c rest =>
    have hc := hall c (List.mem_cons_self c rest)
    have hds := digitsToNat_isSome (c :: rest) (by simp) hall
    cases hd : digitsToNat (c :: rest) with
    | none => rw [hd] at hds; exact absurd hds (by simp)
    | some n => simp [parsePyInt, digit_ne_dash c hc, digit_ne_plus c hc, hd]

/-- `parsePyInt` fails when no character is a digit: every branch ends in a
`digitsToNat` call on a digit-free string. -/
theorem parsePyInt_none_of_no_digit (l : List Char)
    (h : ∀ c ∈ l, isAsciiDigitB c = false) : parsePyInt l = none := by
  cases l with
  | nil => rfl
  | cons c rest =>
    have hrest : ∀ x ∈ rest, isAsciiDigitB x = false :=
      fun x hx => h x (List.mem_cons_of_mem c hx)
    by_cases hdash : c = '-'
    · simp [parsePyInt, hdash, digitsToNat_none rest hrest]
    · by_cases hplus : c = '+'
      · simp [parsePyInt, hdash, hplus, digitsToNat_none rest hrest]
      · simp [parsePyInt, hdash, hplus, digitsToNat_none (c :: rest) h]

/-- C9, counterexample.  The claim states the key is defined for *every*
file whose last three characters contain at least one digit.  A path ending
in `x.1` has the digit `1` among its last three characters, yet stripping
letters leaves `.1`, which `int()` rejects — the key is undefined and
discovery of a group containing such a file raises before any case runs. -/
theorem c9_counterexample :
    (∃ c ∈ lastN 3 ("/p/tests/g/x.1").data, isAsciiDigitB c = true)
    ∧ sortKey "/p/tests/g/x.1" = none
    ∧ groupOrder ["/p/tests/g/x.1"] = none := by
  decide

/-- C9 (amended): the numeric-suffix sort key is
`int(re.sub(r'[a-zA-Z]*', '', x[-3:]))` — computed from only the last three
characters of the path, letters stripped.  It is defined whenever those
characters are letters and digits with at least one digit; and for any group
containing a file with no digit among its last three characters, discovery
fails (an uncaught `ValueError` inside `sorted`) before any case of that
group runs. -/
theorem c9_key_domain (s : String) (files : List String) (f : String) :
    ((∀ c ∈ lastN 3 s.data, (isAsciiLetterB c || isAsciiDigitB c) = true) →
      (∃ c ∈ lastN 3 s.data, isAsciiDigitB c = true) →
      (sortKey s).isSome = true)
    ∧ (f ∈ files →
      (∀ c ∈ lastN 3 f.data, isAsciiDigitB c = false) →
      groupOrder files = none) := by
  constructor
  · intro hall hex
    obtain ⟨c, hcmem, hcdig⟩ := hex
    show (parsePyInt (stripLetters (lastN 3 s.data))).isSome = true
    apply parsePyInt_isSome_of_digits
    · intro hempty
      have hcs : c ∈ stripLetters (lastN 3 s.data) := by
        apply List.mem_filter.mpr
        exact ⟨hcmem, by simp [digit_not_letter c hcdig]⟩
      rw [hempty] at hcs
      exact (List.not_mem_nil c) hcs
    · intro x hx
      obtain ⟨hxm, hxp⟩ := List.mem_filter.mp hx
      have hl : isAsciiLetterB x = false := by simpa using hxp
      have := hall x hxm
      rcases Bool.or_eq_true _ _ |>.mp this with h | h
      · rw [hl] at h; exact absurd h (by simp)
      · exact h
  · intro hf hnd
    have hkey : sortKey f = none := by
      show parsePyInt (stripLetters (lastN 3 f.data)) = none
      apply parsePyInt_none_of_no_digit
      intro x hx
      exact hnd x (List.mem_filter.mp hx).1
    unfold groupOrder
    rw [if_neg]
    intro hAll
    have := List.all_eq_true.mp hAll f hf
    rw [hkey] at this
    exact absurd this (by simp)

/-- Witness for `c9_key_domain`: a letters-then-digits name has a defined
key; a group holding a digit-free `.txt` name aborts discovery. -/
theorem c9_witness :
    (sortKey "/p/tests/g/case7").isSome = true
    ∧ groupOrder ["/p/tests/g/readme.txt"] = none :=
  ⟨(c9_key_domain "/p/tests/g/case7" [] "").1 (by decide) (by decide),
   (c9_key_domain "" ["/p/tests/g/readme.txt"] "/p/tests/g/readme.txt").2
     (by decide) (by decide)⟩

/-- Witness for `c10_stderr_unclassified` at a concrete case. -/
theorem c10_witness :
    (Autotest.run_test copyCmds "/w/tests/t1" (.finished [] [101]) []).report
      = CaseReport.unclassified
    ∧ (Autotest.run_test copyCmds "/w/tests/t1" (.finished [] [101]) []).logEntries
      = [LogEntry.block (cmdLine copyCmds (testfileOf "/w/tests/t1")) [101]] :=
  ⟨(c10_stderr_unclassified copyCmds "/w/tests/t1" [] [101] []
      (by decide) (Or.inl rfl)).1,
   (c10_stderr_unclassified copyCmds "/w/tests/t1" [] [101] []
      (by decide) (Or.inl rfl)).2.2.2 rfl⟩

/-- C4, counterexample.  The claim states that a missing program binary
always aborts during pre-execution validation.  The existence test at
autotest.py line 98 sits under `len(pargs) < 2` (line 97): with two
positional arguments and a missing binary, `check` succeeds with no message
and the run proceeds to spawn the non-existent program. -/
theorem c4_counterexample :
    check { plainCmds with positional_args := ["prog", "t1"] }
        ⟨true, fun _ => false⟩ = .ok (true, [])
    ∧ (⟨true, fun _ => false⟩ : Env).pathExists "prog" = false :=
  ⟨rfl, rfl⟩

/-- C4 (amended): a non-existent tests root in batch mode always aborts
validation with its single program-prefixed message; a missing program
binary aborts validation only when the filetype is not `r` and fewer than
two positional arguments were supplied — with two or more, the binary's
existence is not checked before execution. -/
theorem c4_validation (cmds : Commands) (env : Env) :
    (cmds.testcases = true → env.testFolderExists = false →
      check cmds env = .ok (false, [MSG_TESTS]))
    ∧ (∀ p, cmds.file = none → cmds.testcases = false → cmds.input = true →
        cmds.positional_args = [p] → env.pathExists p = false →
        check cmds env = .ok (false, [MSG_MISSING_PROG])) := by
  constructor
  · intro h1 h2
    simp [check, h1, h2]
  · intro p hf ht hi hp hpe
    simp [check, hf, ht, hi, hp, hpe]

/-- Witness for `c4_validation`: single-file mode with one positional
argument naming a missing program aborts with the validation message. -/
theorem c4_witness :
    check { plainCmds with testcases := false } ⟨true, fun _ => false⟩
      = .ok (false, [MSG_MISSING_PROG]) :=
  (c4_validation { plainCmds with testcases := false } ⟨true, fun _ => false⟩).2
    "prog" rfl rfl rfl rfl rfl

/-- C5, counterexample.  The claim states the log holds exactly one block
per executed case regardless of pass/fail/timeout.  On a timeout,
`run_test` returns before the log-copy code at autotest.py lines 172-175
ever runs (the early `return` at line 139), so a run whose only case times
out logs the header and no block at all. -/
theorem c5_counterexample :
    runLog copyCmds ⟨fun _ => none, fun _ => .timeout⟩ "ts" ["/w/tests/t1"]
      = [LogEntry.header "ts"]
    ∧ [LogEntry.header "ts"].length ≠ 1 + (["/w/tests/t1"] : List String).length := by
  decide

/-- Blocks written per case: one exactly for each case that did not
time out, in execution order. -/
theorem c5_aux (cmds : Commands) (env : BatchEnv) (hcopy : cmds.copy = true) :
    ∀ folders : List String,
      folders.flatMap (fun f => (batchCase cmds env f).logEntries)
        = (folders.filter (fun f => env.exec f ≠ ExecOutcome.timeout)).map
            (fun f => LogEntry.block (cmdLine cmds (testfileOf f)) (caseEffOut env f)) := by
  intro folders
  induction folders with
  | nil => rfl
  | cons f fs ih =>
    rw [List.flatMap_cons, ih, List.filter_cons]
    cases hexec : env.exec f with
    | timeout =>
      simp [batchCase, Autotest.run_test, hexec]
    | finished out err =>
      simp [batchCase, Autotest.run_test, hexec, hcopy, caseEffOut]

/-- C5 (amended): with the `-c` flag, one run's log is exactly one header
timestamp line followed by one block (command line plus effective output)
per executed case that did not time out, in execution order; a timed-out
case contributes no block.  The file is truncated once at run start and
appended to per case. -/
theorem c5_log_blocks (cmds : Commands) (env : BatchEnv) (ts : String)
    (folders : List String) (hcopy : cmds.copy = true) :
    runLog cmds env ts folders
      = LogEntry.header ts ::
        (folders.filter (fun f => env.exec f ≠ ExecOutcome.timeout)).map
          (fun f => LogEntry.block (cmdLine cmds (testfileOf f)) (caseEffOut env f)) := by
  unfold runLog
  rw [c5_aux cmds env hcopy folders, hcopy]
  rfl

/-- Witness for `c5_log_blocks`: one completed case yields header plus one
block. -/
theorem c5_witness :
    runLog copyCmds ⟨fun _ => none, fun _ => .finished [104] []⟩ "ts" ["/w/tests/t1"]
      = [LogEntry.header "ts",
         LogEntry.block (cmdLine copyCmds (testfileOf "/w/tests/t1")) [104]] := by
  rw [c5_log_blocks copyCmds ⟨fun _ => none, fun _ => .finished [104] []⟩
    "ts" ["/w/tests/t1"] rfl]
  decide

/-- C6 (code bug): `TIMEOUT` defaults to 5 as claimed, but the `-T` override
is broken: argparse stores the flag's value as a one-element *list*, and
`main` calls `int()` on that list (autotest.py line 260), which raises
`TypeError` for every supplied timeout instead of installing it — the
program's own help text (`set custom timeout`, line 77) says the flag should
set the timeout. -/
theorem c6_timeout_flag_crashes :
    resolveTimeout none = .ok TIMEOUT
    ∧ TIMEOUT = 5
    ∧ (∀ (s : String) (l : List String),
        resolveTimeout (some (s :: l))
          = .error "TypeError: int() argument must be a string, a bytes-like object or a real number, not 'list'") :=
  ⟨rfl, rfl, fun _ _ => rfl⟩

/-- C7, counterexample.  The claim states a top-level entry is executed only
if its *name* is in the filter set.  The test at autotest.py lines 192-193
intersects the filter with `file.split('/')[-2:]` — name *and* parent
segment — so the filter `{'tests'}` matches every top-level entry, including
`groupB`, whose name is not in the filter. -/
theorem c7_counterexample :
    selected ["tests"] "/w/tests/groupB" = true
    ∧ ¬ ("groupB" ∈ (["tests"] : List String)) := by
  decide

/-- C7 (amended): with a non-empty filter, a top-level entry is executed iff
the filter meets the last two segments of its path — its own name or its
parent's name (`tests` for entries directly under the tests root).  When the
filter avoids the literal segment `tests`, this is exactly name membership;
with filter `{groupA}` over `groupA` and `groupB`, exactly `groupA` runs. -/
theorem c7_filter_name_or_parent (filt segs : List String) (name : String)
    (hne : filt ≠ []) (hnt : "tests" ∉ filt)
    (hsegs : lastN 2 segs = ["tests", name]) :
    (selectedSegs filt segs = true ↔ name ∈ filt)
    ∧ selectedEntries ["groupA"] ["/w/tests/groupA", "/w/tests/groupB"]
        = ["/w/tests/groupA"] := by
  constructor
  · unfold selectedSegs
    rw [hsegs]
    simp [hne, hnt]
  · decide

/-- Witness for `c7_filter_name_or_parent` at the specification's example. -/
theorem c7_witness :
    selectedSegs ["groupA"] ["w", "tests", "groupA"] = true :=
  ((c7_filter_name_or_parent ["groupA"] ["w", "tests", "groupA"] "groupA"
      (by decide) (by decide) (by decide)).1).mpr (by decide)

/-- `fileTestLoop` yields one event per file argument. -/
theorem fileTestLoop_length (isFile : String → Bool) :
    ∀ (i : Nat) (files : List String),
      (fileTestLoop isFile i files).length = files.length := by
  intro i files
  induction files generalizing i with
  | nil => rfl
  | cons f fs ih => simp [fileTestLoop, ih]

/-- The event at each position of the `file_test` loop. -/
theorem fileTestLoop_get? (isFile : String → Bool) :
    ∀ (files : List String) (i k : Nat) (hk : k < files.length),
      (fileTestLoop isFile i files).get? k
        = some (if isFile (files.get ⟨k, hk⟩) = true
            then FileTestEvent.run (i + k) (files.get ⟨k, hk⟩)
            else FileTestEvent.notFound (basenameOf (files.get ⟨k, hk⟩))) := by
  intro files
  induction files with
  | nil => intro i k hk; exact absurd hk (by simp)
  | cons f fs ih =>
    intro i k hk
    cases k with
    | zero => simp [fileTestLoop]
    | succ k' =>
      have hk' : k' < fs.length := Nat.lt_of_succ_lt_succ hk
      have harith : i + 1 + k' = i + (k' + 1) := by omega
      simp only [fileTestLoop, List.get?_cons_succ, List.get]
      rw [ih (i + 1) k' hk', harith]

/-- C8 (confirmed): in single-case `-i` mode, every file argument gets
exactly one event in argument order; a non-existent argument produces a
"not found" message naming it (by basename) and is not executed, while every
existing argument is executed as test number (position + 1). -/
theorem c8_missing_files (isFile : String → Bool) (files : List String)
    (k : Nat) (hk : k < files.length) :
    (fileTestEvents isFile files).length = files.length
    ∧ (isFile (files.get ⟨k, hk⟩) = false →
        (fileTestEvents isFile files).get? k
          = some (FileTestEvent.notFound (basenameOf (files.get ⟨k, hk⟩))))
    ∧ (isFile (files.get ⟨k, hk⟩) = true →
        (fileTestEvents isFile files).get? k
          = some (FileTestEvent.run (k + 1) (files.get ⟨k, hk⟩))) := by
  refine ⟨fileTestLoop_length isFile 1 files, ?_, ?_⟩
  · intro h
    rw [fileTestEvents, fileTestLoop_get? isFile files 1 k hk, h]
    simp
  · intro h
    rw [fileTestEvents, fileTestLoop_get? isFile files 1 k hk, h]
    simp [Nat.add_comm]

/-- Witness for `c8_missing_files`: the second, missing argument yields the
"not found" event at its own position. -/
theorem c8_witness :
    (fileTestEvents (fun s => s == "a") ["a", "missing"]).get? 1
      = some (FileTestEvent.notFound (basenameOf "missing")) :=
  (c8_missing_files (fun s => s == "a") ["a", "missing"] 1 (by decide)).2.1 (by decide)
